import Mathlib

/-!
Verification of the lci test driver (`test/testDriver.py`).

The driver parses a command line into a test description, assembles the
command vector for the interpreter (optionally wrapped in valgrind), runs
it, and classifies the run from the child's return code and captured
standard output.  We embed the test description, the captured execution
result, the command assembly, and the classification control flow of the
script as Lean functions and prove the stated properties about them.
-/

/-- The sentinel exit code reserved for memory faults (`MEMERR = 127` in the
script, passed to valgrind as `--error-exitcode`). -/
def MEMERR : Int := 127

/-- One test case, as described by the driver's command line: the two
positional arguments, the optional expected-output file (its contents),
the optional input file, and the two boolean flags. -/
structure TestSpec where
  pathToLCI : String
  lolcodeFile : String
  outputFile : Option String
  inputFile : Option String
  expectError : Bool
  memCheck : Bool
deriving DecidableEq, Repr

/-- The observable result of running the child process: its return code
(recorded verbatim from `p.returncode`) and the fully captured standard
output and standard error streams (`results[0]` and `results[1]`). -/
structure ExecutionResult where
  exitCode : Int
  stdout : String
  stderr : String
deriving DecidableEq, Repr

/-- The classified outcome of one run.  The script has no explicit verdict
datatype; each constructor corresponds to one terminal branch of its
control flow (a distinct failure message followed by `sys.exit(1)`, or the
fall-through success path that exits 0). -/
inductive Verdict where
  | MemoryFault
  | UnexpectedSuccess
  | UnexpectedFailure
  | OutputMismatch
  | Pass
deriving DecidableEq, Repr

/-- The expected output: `""` unless an output file was supplied, in which
case its full contents (`expectedOutput = args.outputFile.read()`). -/
def expectedOutput (spec : TestSpec) : String :=
  spec.outputFile.getD ""

/-- The assembled command vector.  The script builds a Python list:
valgrind with `-q`, `--leak-check=full` and `--error-exitcode=127` is
appended first when `memCheck` is set, then the interpreter path, then the
source file; the list is handed to `subprocess.Popen` as a discrete
argument vector (no `shell=True`). -/
def buildCommand (spec : TestSpec) : List String :=
  (if spec.memCheck then
    ["valgrind", "-q", "--leak-check=full", "--error-exitcode=" ++ toString MEMERR]
  else []) ++ [spec.pathToLCI, spec.lolcodeFile]

/-- The classification control flow of the script, in source order:
1. `if p.returncode == MEMERR:` print the memory-leak failure and exit 1 —
   note this test is not guarded by `memCheck` in the script;
2. `if args.expectError:` exit 1 when the return code is 0, otherwise
   print success and the captured stderr and continue;
3. `if args.outputFile:` exit 1 on a nonzero return code, exit 1 when the
   expected output differs from the captured stdout, otherwise success;
4. otherwise fall through (the script ends, exiting 0). -/
def classify (spec : TestSpec) (r : ExecutionResult) : Verdict :=
  if r.exitCode = MEMERR then
    Verdict.MemoryFault
  else if spec.expectError ∧ r.exitCode = 0 then
    Verdict.UnexpectedSuccess
  else if spec.outputFile.isSome then
    if r.exitCode ≠ 0 then Verdict.UnexpectedFailure
    else if expectedOutput spec ≠ r.stdout then Verdict.OutputMismatch
    else Verdict.Pass
  else
    Verdict.Pass

/-- The harness's own exit status: every failing branch of the script calls
`sys.exit(1)`, and the fall-through success path exits 0. -/
def harnessExit (spec : TestSpec) (r : ExecutionResult) : Nat :=
  match classify spec r with
  | Verdict.Pass => 0
  | _ => 1

/-- C1 as stated is false: with `expectError = true` the claim quantifies
over this TestSpec too, but a child that exits 0 and prints exactly the
expected output is classified `UnexpectedSuccess` with harness exit 1,
not `Pass` with exit 0. -/
theorem c1_counterexample :
    classify ⟨"/bin/lci", "hello.lol", some "HAI\n", none, true, false⟩
      ⟨0, "HAI\n", ""⟩ = Verdict.UnexpectedSuccess ∧
    harnessExit ⟨"/bin/lci", "hello.lol", some "HAI\n", none, true, false⟩
      ⟨0, "HAI\n", ""⟩ = 1 := by
  exact ⟨rfl, rfl⟩

/-- C1 (amended): for every TestSpec with `expectedOutput = E` and
`expectError = false`, when the child exits 0 and writes exactly `E` to
its standard output, the verdict is `Pass` and the harness exits with
status 0. -/
theorem c1_pass_on_exact_match (spec : TestSpec) (E : String) (r : ExecutionResult)
    (hout : spec.outputFile = some E) (herr : spec.expectError = false)
    (hrc : r.exitCode = 0) (hstd : r.stdout = E) :
    classify spec r = Verdict.Pass ∧ harnessExit spec r = 0 := by
  have h : classify spec r = Verdict.Pass := by
    simp [classify, expectedOutput, MEMERR, hout, herr, hrc, hstd]
  exact ⟨h, by simp [harnessExit, h]⟩

/-- Witness for C1: the spec's scenario with interpreter `/bin/lci`,
source `hello.lol`, expected output `"HAI\n"`, child printing `"HAI\n"`
and exiting 0. -/
theorem c1_pass_on_exact_match_witness :
    classify ⟨"/bin/lci", "hello.lol", some "HAI\n", none, false, false⟩
      ⟨0, "HAI\n", ""⟩ = Verdict.Pass ∧
    harnessExit ⟨"/bin/lci", "hello.lol", some "HAI\n", none, false, false⟩
      ⟨0, "HAI\n", ""⟩ = 0 :=
  c1_pass_on_exact_match _ "HAI\n" _ rfl rfl rfl rfl

/-- C2 as stated is false: the script's `returncode == MEMERR` check is not
guarded by `memCheck`, so a smoke-test TestSpec (no flags, no expected
output) whose child exits 127 is classified `MemoryFault` with harness
exit 1, not `Pass` with exit 0. -/
theorem c2_counterexample :
    classify ⟨"/bin/lci", "hello.lol", none, none, false, false⟩
      ⟨127, "", ""⟩ = Verdict.MemoryFault ∧
    harnessExit ⟨"/bin/lci", "hello.lol", none, none, false, false⟩
      ⟨127, "", ""⟩ = 1 := by
  exact ⟨rfl, rfl⟩

/-- C2 (amended): for every TestSpec with `expectError = false`,
`memCheck = false` and no expected output, every child exit code other
than the sentinel 127 yields `Pass` and harness exit 0; exit code 127
yields `MemoryFault` and harness exit 1 even though no memory check was
requested. -/
theorem c2_smoke_test (spec : TestSpec) (r : ExecutionResult)
    (herr : spec.expectError = false) (hmem : spec.memCheck = false)
    (hout : spec.outputFile = none) :
    (r.exitCode ≠ 127 → classify spec r = Verdict.Pass ∧ harnessExit spec r = 0) ∧
    (r.exitCode = 127 → classify spec r = Verdict.MemoryFault ∧ harnessExit spec r = 1) := by
  constructor
  · intro h127
    have h : classify spec r = Verdict.Pass := by
      simp [classify, MEMERR, herr, hout, h127]
    exact ⟨h, by simp [harnessExit, h]⟩
  · intro h127
    have h : classify spec r = Verdict.MemoryFault := by
      simp [classify, MEMERR, h127]
    exact ⟨h, by simp [harnessExit, h]⟩

/-- Witness for C2 (amended): a smoke test whose child exits 5. -/
theorem c2_smoke_test_witness :
    classify ⟨"/bin/lci", "hello.lol", none, none, false, false⟩
      ⟨5, "anything", ""⟩ = Verdict.Pass ∧
    harnessExit ⟨"/bin/lci", "hello.lol", none, none, false, false⟩
      ⟨5, "anything", ""⟩ = 0 :=
  (c2_smoke_test _ _ rfl rfl rfl).1 (by decide)

/-- C3: for every TestSpec with `memCheck = true`, a child exiting with
the sentinel code 127 is classified `MemoryFault` — regardless of
`expectError` and even when the expected output matches the captured
stdout exactly — and the harness exits with status 1. -/
theorem c3_memory_fault_short_circuits (spec : TestSpec) (r : ExecutionResult)
    (hmem : spec.memCheck = true) (hrc : r.exitCode = 127) :
    classify spec r = Verdict.MemoryFault ∧ harnessExit spec r = 1 := by
  have h : classify spec r = Verdict.MemoryFault := by
    simp [classify, MEMERR, hrc]
  exact ⟨h, by simp [harnessExit, h]⟩

/-- Witness for C3: `memCheck = true`, `expectError = true`, expected
output matching stdout exactly, child exits 127. -/
theorem c3_memory_fault_short_circuits_witness :
    classify ⟨"/bin/lci", "hello.lol", some "HAI\n", none, true, true⟩
      ⟨127, "HAI\n", ""⟩ = Verdict.MemoryFault ∧
    harnessExit ⟨"/bin/lci", "hello.lol", some "HAI\n", none, true, true⟩
      ⟨127, "HAI\n", ""⟩ = 1 :=
  c3_memory_fault_short_circuits _ _ rfl rfl

/-- C4 as stated is false at the sentinel: with expected output set and a
child exiting 127 (a nonzero code), the verdict is `MemoryFault`, not
`UnexpectedFailure` (the harness still exits nonzero). -/
theorem c4_counterexample :
    classify ⟨"/bin/lci", "hello.lol", some "HAI\n", none, false, false⟩
      ⟨127, "HAI\n", ""⟩ = Verdict.MemoryFault ∧
    Verdict.MemoryFault ≠ Verdict.UnexpectedFailure := by
  exact ⟨rfl, by decide⟩

/-- C4 (amended): for every TestSpec with expected output set and a child
exiting nonzero, the harness exits 1 regardless of stdout content; the
verdict is `UnexpectedFailure` for every nonzero code other than 127, and
`MemoryFault` for 127. -/
theorem c4_nonzero_exit_fails (spec : TestSpec) (E : String) (r : ExecutionResult)
    (hout : spec.outputFile = some E) (hrc : r.exitCode ≠ 0) :
    harnessExit spec r = 1 ∧
    (r.exitCode ≠ 127 → classify spec r = Verdict.UnexpectedFailure) ∧
    (r.exitCode = 127 → classify spec r = Verdict.MemoryFault) := by
  have hcl : (r.exitCode ≠ 127 → classify spec r = Verdict.UnexpectedFailure) ∧
      (r.exitCode = 127 → classify spec r = Verdict.MemoryFault) := by
    constructor
    · intro h127
      simp [classify, MEMERR, hout, hrc, h127]
    · intro h127
      simp [classify, MEMERR, h127]
  refine ⟨?_, hcl⟩
  by_cases h127 : r.exitCode = 127
  · simp [harnessExit, hcl.2 h127]
  · simp [harnessExit, hcl.1 h127]

/-- Witness for C4 (amended): child exits 3 but prints exactly the
expected output — still a failure with harness exit 1. -/
theorem c4_nonzero_exit_fails_witness :
    harnessExit ⟨"/bin/lci", "hello.lol", some "HAI\n", none, false, false⟩
      ⟨3, "HAI\n", ""⟩ = 1 ∧
    classify ⟨"/bin/lci", "hello.lol", some "HAI\n", none, false, false⟩
      ⟨3, "HAI\n", ""⟩ = Verdict.UnexpectedFailure := by
  have h := c4_nonzero_exit_fails
    ⟨"/bin/lci", "hello.lol", some "HAI\n", none, false, false⟩ "HAI\n"
    ⟨3, "HAI\n", ""⟩ rfl (by decide)
  exact ⟨h.1, h.2.1 (by decide)⟩

/-- C5: for every TestSpec with `expectError = true`, a child exiting 0 is
classified `UnexpectedSuccess` and the harness exits with a nonzero
status (namely 1), regardless of the other fields. -/
theorem c5_unexpected_success (spec : TestSpec) (r : ExecutionResult)
    (herr : spec.expectError = true) (hrc : r.exitCode = 0) :
    classify spec r = Verdict.UnexpectedSuccess ∧ harnessExit spec r = 1 := by
  have h : classify spec r = Verdict.UnexpectedSuccess := by
    simp [classify, MEMERR, herr, hrc]
  exact ⟨h, by simp [harnessExit, h]⟩

/-- Witness for C5: `expectError = true`, child exits 0. -/
theorem c5_unexpected_success_witness :
    classify ⟨"/bin/lci", "hello.lol", none, none, true, false⟩
      ⟨0, "", ""⟩ = Verdict.UnexpectedSuccess ∧
    harnessExit ⟨"/bin/lci", "hello.lol", none, none, true, false⟩
      ⟨0, "", ""⟩ = 1 :=
  c5_unexpected_success _ _ rfl rfl

/-- C6 as stated is false at the sentinel: with `expectError = true` and no
expected output, a child exiting 127 (a nonzero code) hits the
unconditional sentinel check first and is classified `MemoryFault` with
harness exit 1, not the satisfied-error `Pass` with exit 0. -/
theorem c6_counterexample :
    classify ⟨"/bin/lci", "hello.lol", none, none, true, false⟩
      ⟨127, "", "parse error"⟩ = Verdict.MemoryFault ∧
    harnessExit ⟨"/bin/lci", "hello.lol", none, none, true, false⟩
      ⟨127, "", "parse error"⟩ = 1 := by
  exact ⟨rfl, rfl⟩

/-- C6 (amended): for every TestSpec with `expectError = true` and no
expected output, a child exiting with any nonzero code other than 127
satisfies the error expectation: the verdict is `Pass` and the harness
exits 0, independent of the content of stdout and stderr. -/
theorem c6_satisfied_error (spec : TestSpec) (r : ExecutionResult)
    (herr : spec.expectError = true) (hout : spec.outputFile = none)
    (hrc : r.exitCode ≠ 0) (h127 : r.exitCode ≠ 127) :
    classify spec r = Verdict.Pass ∧ harnessExit spec r = 0 := by
  have h : classify spec r = Verdict.Pass := by
    simp [classify, MEMERR, hout, hrc, h127]
  exact ⟨h, by simp [harnessExit, h]⟩

/-- Witness for C6 (amended): the spec's scenario — `expectError = true`,
child exits 1 with stderr `"parse error"`. -/
theorem c6_satisfied_error_witness :
    classify ⟨"/bin/lci", "hello.lol", none, none, true, false⟩
      ⟨1, "", "parse error"⟩ = Verdict.Pass ∧
    harnessExit ⟨"/bin/lci", "hello.lol", none, none, true, false⟩
      ⟨1, "", "parse error"⟩ = 0 :=
  c6_satisfied_error _ _ rfl rfl (by decide) (by decide)

/-- C7: the assembled command vector is the memory-checking tool in quiet
mode with full leak checking and error-exit-code override 127, followed by
the interpreter and the source file, when `memCheck` is set; and exactly
the interpreter followed by the source file otherwise.  The command is a
discrete list of argument strings (the embedding of the Python list handed
to `subprocess.Popen` without a shell). -/
theorem c7_command_vector (spec : TestSpec) :
    buildCommand spec =
      if spec.memCheck then
        ["valgrind", "-q", "--leak-check=full", "--error-exitcode=127",
         spec.pathToLCI, spec.lolcodeFile]
      else
        [spec.pathToLCI, spec.lolcodeFile] := by
  cases h : spec.memCheck <;> simp [buildCommand, h, MEMERR] <;> rfl

/-- C8: the verdict and the harness exit status depend only on the child's
exit code and captured stdout: two ExecutionResults agreeing on those two
fields but with arbitrary (possibly different) stderr yield the same
verdict and the same harness exit status for every TestSpec. -/
theorem c8_stderr_noninterference (spec : TestSpec) (r₁ r₂ : ExecutionResult)
    (hc : r₁.exitCode = r₂.exitCode) (hs : r₁.stdout = r₂.stdout) :
    classify spec r₁ = classify spec r₂ ∧ harnessExit spec r₁ = harnessExit spec r₂ := by
  have h : classify spec r₁ = classify spec r₂ := by
    simp [classify, hc, hs]
  exact ⟨h, by simp [harnessExit, h]⟩

/-- Witness for C8: two runs identical except for stderr are classified
identically. -/
theorem c8_stderr_noninterference_witness :
    classify ⟨"/bin/lci", "hello.lol", some "HAI\n", none, false, false⟩
      ⟨0, "HAI\n", ""⟩ =
    classify ⟨"/bin/lci", "hello.lol", some "HAI\n", none, false, false⟩
      ⟨0, "HAI\n", "scary warning"⟩ ∧
    harnessExit ⟨"/bin/lci", "hello.lol", some "HAI\n", none, false, false⟩
      ⟨0, "HAI\n", ""⟩ =
    harnessExit ⟨"/bin/lci", "hello.lol", some "HAI\n", none, false, false⟩
      ⟨0, "HAI\n", "scary warning"⟩ :=
  c8_stderr_noninterference _ _ _ rfl rfl

/-- C9: classification is deterministic — it is a pure function of the
TestSpec and the ExecutionResult, so two runs of the classifier on equal
inputs produce identical verdicts and identical harness exit statuses. -/
theorem c9_deterministic (spec₁ spec₂ : TestSpec) (r₁ r₂ : ExecutionResult)
    (hspec : spec₁ = spec₂) (hr : r₁ = r₂) :
    classify spec₁ r₁ = classify spec₂ r₂ ∧
    harnessExit spec₁ r₁ = harnessExit spec₂ r₂ := by
  subst hspec; subst hr; exact ⟨rfl, rfl⟩

/-- Witness for C9: the classifier applied twice to the same concrete
inputs. -/
theorem c9_deterministic_witness :
    classify ⟨"/bin/lci", "hello.lol", some "HAI\n", none, false, true⟩
      ⟨2, "HAI\n", "x"⟩ =
    classify ⟨"/bin/lci", "hello.lol", some "HAI\n", none, false, true⟩
      ⟨2, "HAI\n", "x"⟩ ∧
    harnessExit ⟨"/bin/lci", "hello.lol", some "HAI\n", none, false, true⟩
      ⟨2, "HAI\n", "x"⟩ =
    harnessExit ⟨"/bin/lci", "hello.lol", some "HAI\n", none, false, true⟩
      ⟨2, "HAI\n", "x"⟩ :=
  c9_deterministic _ _ _ _ rfl rfl

/-- C10 as stated is false in its classification clause: with
`expectError = true` and expected output present, a child exiting 127 is
classified `MemoryFault` by the unconditional sentinel check, not
`UnexpectedFailure` by the output check (the harness still exits 1). -/
theorem c10_counterexample :
    classify ⟨"/bin/lci", "hello.lol", some "HAI\n", none, true, false⟩
      ⟨127, "HAI\n", ""⟩ = Verdict.MemoryFault ∧
    Verdict.MemoryFault ≠ Verdict.UnexpectedFailure := by
  exact ⟨rfl, by decide⟩

/-- C10 (amended): for every TestSpec with both `expectError = true` and
expected output present, no ExecutionResult produces a `Pass` and the
harness exits 1 for every possible child exit code: 0 is classified
`UnexpectedSuccess`, 127 is classified `MemoryFault`, and every other
nonzero code is classified `UnexpectedFailure`. -/
theorem c10_never_passes (spec : TestSpec) (E : String) (r : ExecutionResult)
    (herr : spec.expectError = true) (hout : spec.outputFile = some E) :
    classify spec r ≠ Verdict.Pass ∧ harnessExit spec r = 1 ∧
    (r.exitCode = 0 → classify spec r = Verdict.UnexpectedSuccess) ∧
    (r.exitCode = 127 → classify spec r = Verdict.MemoryFault) ∧
    (r.exitCode ≠ 0 → r.exitCode ≠ 127 → classify spec r = Verdict.UnexpectedFailure) := by
  have hcases : (r.exitCode = 0 → classify spec r = Verdict.UnexpectedSuccess) ∧
      (r.exitCode = 127 → classify spec r = Verdict.MemoryFault) ∧
      (r.exitCode ≠ 0 → r.exitCode ≠ 127 → classify spec r = Verdict.UnexpectedFailure) := by
    refine ⟨fun h0 => ?_, fun h127 => ?_, fun h0 h127 => ?_⟩
    · simp [classify, MEMERR, herr, h0]
    · simp [classify, MEMERR, h127]
    · simp [classify, MEMERR, hout, h0, h127]
  have hnp : classify spec r ≠ Verdict.Pass := by
    by_cases h127 : r.exitCode = 127
    · simp [hcases.2.1 h127]
    · by_cases h0 : r.exitCode = 0
      · simp [hcases.1 h0]
      · simp [hcases.2.2 h0 h127]
  refine ⟨hnp, ?_, hcases⟩
  unfold harnessExit
  cases h : classify spec r <;> simp_all

/-- Witness for C10 (amended): `expectError = true` with expected output
present, child exits 2 while printing the expected bytes — still no pass. -/
theorem c10_never_passes_witness :
    classify ⟨"/bin/lci", "hello.lol", some "HAI\n", none, true, false⟩
      ⟨2, "HAI\n", ""⟩ ≠ Verdict.Pass ∧
    harnessExit ⟨"/bin/lci", "hello.lol", some "HAI\n", none, true, false⟩
      ⟨2, "HAI\n", ""⟩ = 1 :=
  ⟨(c10_never_passes _ "HAI\n" _ rfl rfl).1,
   (c10_never_passes ⟨"/bin/lci", "hello.lol", some "HAI\n", none, true, false⟩
     "HAI\n" ⟨2, "HAI\n", ""⟩ rfl rfl).2.1⟩
